import Mathlib

/-!
Verification of the interest-accrual and payment-allocation engine of a
pawn-shop ledger (`app.py`).

Modelling conventions (shallow embedding):
* Money values (`REAL` columns, Python floats) are modelled as rationals (`ℚ`).
* A timestamp string `"YYYY-MM-DD HH:MM:SS"` is modelled as the integer number
  of seconds it denotes; a date string `"YYYY-MM-DD"` as the integer number of
  days.  `datetime.combine(d, min.time())` is then `d * 86400`, the `.days`
  attribute of a `timedelta` is floor division of the second difference by
  86400, and `s[:10]` (truncating a timestamp to its date) is `.fdiv 86400`.
* Python `round(x, 2)` (round-half-to-even at two decimals) is `round2`.
* Python truthiness on a numeric column (`loan["interest_rate"] or 20`) means
  the value `0` also selects the default; `rateOr20` captures this.
* The database is a record: a partial map from id to loan row, a list of
  payment rows (with their AUTOINCREMENT ids), the next payment id, and a
  list of cash movements.  SQL `SUM`/`MAX`/`DELETE` become list folds/filters.
-/

/-- String constants of the source (payment types, refs, messages). -/
def tINTERES : String := "INTERES"

def tABONO : String := "ABONO"

def refPAY : String := "PAY"

def refUNDO : String := "UNDO"

def roleAdmin : String := "admin"

def adminKey : String := "0219"

def modeAUTO : String := "AUTO"

def modeSoloInteres : String := "SOLO_INTERES"

def modeSoloCapital : String := "SOLO_CAPITAL"

def errMonto : String := "Monto invalido"

def errNoEncontrado : String := "No encontrado"

def errPagoNoEncontrado : String := "Pago no encontrado"

def errAcceso : String := "Acceso denegado"

def errClave : String := "Clave incorrecta"

def payConcept (loan_id : Nat) : String := "Pago empeno #" ++ toString loan_id

def undoConcept (loan_id : Nat) : String := "REVERSO pago empeno #" ++ toString loan_id

/-- Python `round(x, 2)`: round half to even at two decimal places,
returned as the rounded-to-integer value of `x * 100`. -/
def rhe (q : ℚ) : ℤ :=
  let f := ⌊q⌋
  let r := q - f
  if r < 1/2 then f
  else if 1/2 < r then f + 1
  else if f % 2 = 0 then f else f + 1

/-- Python `round(x, 2)` as a rational. -/
def round2 (q : ℚ) : ℚ := (rhe (q * 100) : ℚ) / 100

/-- `loans` table row (schema: `CREATE TABLE loans`; `amount` and
`interest_rate` are `REAL NOT NULL`, `created_at` a timestamp string,
`due_date` a date string). -/
structure Loan where
  created_at : ℤ
  item_name : String
  weight_grams : ℚ
  customer_name : String
  customer_id : String
  phone : String
  amount : ℚ
  interest_rate : ℚ
  due_date : ℤ
  status : String
deriving Repr, DecidableEq

/-- `payments` table row. -/
structure Payment where
  id : Nat
  loan_id : Nat
  paid_at : ℤ
  amount : ℚ
  type : String
  notes : String
deriving Repr, DecidableEq

/-- `cash_movements` table row. -/
structure CashMovement where
  when_at : ℤ
  concept : String
  amount : ℚ
  ref : String
deriving Repr, DecidableEq

/-- The relational store, restricted to the tables the engine touches. -/
structure DB where
  loans : Nat → Option Loan
  payments : List Payment
  next_payment_id : Nat
  cash_movements : List CashMovement

/-- `(loan["interest_rate"] or 20)`: Python treats the number `0` as falsy,
so a zero rate also selects the default of 20. -/
def rateOr20 (r : ℚ) : ℚ := if r = 0 then 20 else r

/-- `SELECT MAX(paid_at) FROM payments WHERE loan_id=? AND type='INTERES'`
(the `MAX` of timestamp strings in this fixed format is the chronological
maximum). -/
def lastIntPaid (db : DB) (loan_id : Nat) : Option ℤ :=
  ((db.payments.filter (fun p => p.loan_id == loan_id && p.type == tINTERES)).map
    (fun p => p.paid_at)).max?

/-- `interest_due_as_of(loan_id, as_of_date, start_override)` from `app.py`:
pending interest from the last INTERES payment (or the loan start, or an
explicit override) up to `as_of_date`. -/
def interest_due_as_of (db : DB) (loan_id : Nat) (as_of_date : ℤ)
    (start_override : Option ℤ) : ℚ :=
  match db.loans loan_id with
  | none => 0
  | some loan =>
    let created_dt := loan.created_at
    let start_dt : ℤ :=
      match start_override with
      | some d => d * 86400
      | none =>
        match lastIntPaid db loan_id with
        | some t => t
        | none => created_dt
    let end_dt := as_of_date * 86400
    let days : ℤ := max 1 ((end_dt - start_dt).fdiv 86400)
    let monthly := rateOr20 loan.interest_rate / 100
    let daily := monthly / 30
    let principal := loan.amount
    max 0 (principal * daily * (days : ℚ))

/-- `monthly_interest(amount, monthly_rate_pct)`. -/
def monthly_interest (amount : ℚ) (monthly_rate_pct : ℚ) : ℚ :=
  amount * (monthly_rate_pct / 100)

/-- `months_range_inclusive(y1, m1, y2, m2)`: the `while` loop that yields
`(y, m)` pairs while `(y < y2) or (y == y2 and m <= m2)`, stepping the month
and rolling over after December. -/
def months_range_inclusive (y1 m1 y2 m2 : ℤ) : List (ℤ × ℤ) :=
  if y1 < y2 ∨ (y1 = y2 ∧ m1 ≤ m2) then
    (y1, m1) ::
      (if 12 < m1 + 1 then months_range_inclusive (y1 + 1) 1 y2 m2
       else months_range_inclusive y1 (m1 + 1) y2 m2)
  else []
termination_by (13 * (y2 + 1 - y1).toNat + (13 - m1).toNat : Nat)
decreasing_by
  · omega
  · omega

/-- `months_between_inclusive(d1, d2)` on the year/month components. -/
def months_between_inclusive (y1 m1 y2 m2 : ℤ) : ℤ :=
  (y2 - y1) * 12 + (m2 - m1) + 1

/-- `monthly_interest_breakdown(loan_row, from_month, to_month)`: one flat
per-month estimate per calendar month in the inclusive range, plus the total.
The `"AAAA-MM"` label is represented by the `(year, month)` pair itself. -/
def monthly_interest_breakdown (amount : ℚ) (interest_rate : ℚ)
    (y1 m1 y2 m2 : ℤ) : List ((ℤ × ℤ) × ℚ) × ℚ :=
  let months := months_range_inclusive y1 m1 y2 m2
  let per_month := monthly_interest amount interest_rate
  (months.map (fun ym => (ym, per_month)), per_month * months.length)

/-- The POST form fields read by `payment_page` (plus `apply_mode`, which the
form offers but the handler never reads).  `amount` and `capital_extra` are
the parsed floats, `as_of_date` the parsed as-of date, `from_date` the parsed
manual override (`none` when blank or unparsable). -/
structure PayForm where
  amount : ℚ
  capital_extra : ℚ
  notes : String
  as_of_date : ℤ
  from_date : Option ℤ
  apply_mode : String
deriving Repr

/-- The `action == "PAY"` branch of `payment_page` in `app.py`:
validate the amounts, clamp the interest component to the computed
`interest_due`, insert the INTERES/ABONO payment rows, decrement the loan's
amount by the principal component, and append one positive cash movement. -/
def recordPayment (db : DB) (loan_id : Nat) (form : PayForm) (now : ℤ) :
    Except String DB :=
  if form.amount ≤ 0 ∧ form.capital_extra ≤ 0 then Except.error errMonto
  else
    match db.loans loan_id with
    | none => Except.error errNoEncontrado
    | some loan =>
      let start_date : ℤ :=
        match form.from_date with
        | some d => d
        | none => loan.created_at.fdiv 86400
      let interest_due := interest_due_as_of db loan_id form.as_of_date (some start_date)
      let to_interest := min form.amount interest_due
      let to_principal := form.capital_extra
      let pays1 :=
        if 0 < to_interest then
          db.payments ++ [⟨db.next_payment_id, loan_id, now, round2 to_interest, tINTERES, form.notes⟩]
        else db.payments
      let nid1 := if 0 < to_interest then db.next_payment_id + 1 else db.next_payment_id
      let pays2 :=
        if 0 < to_principal then
          pays1 ++ [⟨nid1, loan_id, now, round2 to_principal, tABONO, form.notes⟩]
        else pays1
      let nid2 := if 0 < to_principal then nid1 + 1 else nid1
      let loans2 : Nat → Option Loan :=
        if 0 < to_principal then
          fun j => if j = loan_id then
              (db.loans j).map (fun l => { l with amount := l.amount - round2 to_principal })
            else db.loans j
        else db.loans
      let total_pagado := round2 (to_interest + to_principal)
      Except.ok
        { loans := loans2
          payments := pays2
          next_payment_id := nid2
          cash_movements := db.cash_movements ++ [⟨now, payConcept loan_id, total_pagado, refPAY⟩] }

/-- The `action == "UNDO"` branch of `payment_page`: after the admin checks,
look up the clicked payment row to get its `paid_at`, add the receipt's ABONO
total back to the loan's amount, delete every payment row of the receipt, and
append one negative cash movement for the receipt's total. -/
def undoPayment (db : DB) (loan_id : Nat) (receipt_id : Nat) (now : ℤ)
    (role : String) (admin_key : String) : Except String DB :=
  if role ≠ roleAdmin then Except.error errAcceso
  else if admin_key ≠ adminKey then Except.error errClave
  else
    match db.payments.find? (fun p => p.id == receipt_id) with
    | none => Except.error errPagoNoEncontrado
    | some base =>
      let paid_at := base.paid_at
      let capital_devuelto : ℚ :=
        ((db.payments.filter (fun p =>
            p.loan_id == loan_id && p.paid_at == paid_at && p.type == tABONO)).map
          (fun p => p.amount)).sum
      let total_pagado : ℚ :=
        ((db.payments.filter (fun p =>
            p.loan_id == loan_id && p.paid_at == paid_at)).map
          (fun p => p.amount)).sum
      let loans' : Nat → Option Loan :=
        if 0 < capital_devuelto then
          fun j => if j = loan_id then
              (db.loans j).map (fun l => { l with amount := l.amount + round2 capital_devuelto })
            else db.loans j
        else db.loans
      let payments' :=
        db.payments.filter (fun p => !(p.loan_id == loan_id && p.paid_at == paid_at))
      Except.ok
        { loans := loans'
          payments := payments'
          next_payment_id := db.next_payment_id
          cash_movements :=
            db.cash_movements ++ [⟨now, undoConcept loan_id, -round2 total_pagado, refUNDO⟩] }

/-! ### Arithmetic helper lemmas -/

theorem rhe_intCast (n : ℤ) : rhe (n : ℚ) = n := by
  unfold rhe
  simp only [Int.floor_intCast, sub_self]
  norm_num

theorem round2_eq_self (q : ℚ) (n : ℤ) (h : q * 100 = (n : ℚ)) : round2 q = q := by
  unfold round2
  rw [h, rhe_intCast, ← h]
  field_simp

theorem round2_mul_100 (q : ℚ) : round2 q * 100 = (rhe (q * 100) : ℚ) := by
  unfold round2
  field_simp

theorem round2_idem (q : ℚ) : round2 (round2 q) = round2 q :=
  round2_eq_self _ (rhe (q * 100)) (round2_mul_100 q)

theorem round2_add_round2 (a b : ℚ) :
    round2 (round2 a + round2 b) = round2 a + round2 b := by
  refine round2_eq_self _ (rhe (a * 100) + rhe (b * 100)) ?_
  push_cast [← round2_mul_100]
  ring

theorem rhe_nonneg (q : ℚ) (h : 0 ≤ q) : 0 ≤ rhe q := by
  have h0 : (0 : ℤ) ≤ ⌊q⌋ := Int.floor_nonneg.mpr h
  unfold rhe
  dsimp only
  split_ifs <;> omega

theorem round2_nonneg (q : ℚ) (h : 0 ≤ q) : 0 ≤ round2 q := by
  unfold round2
  have : (0 : ℚ) ≤ (rhe (q * 100) : ℚ) := by
    exact_mod_cast rhe_nonneg (q * 100) (by positivity)
  positivity

theorem round2_zero : round2 0 = 0 :=
  round2_eq_self 0 0 (by norm_num)

theorem find?_append_of_forall_false {α : Type} {l1 l2 : List α} {p : α → Bool}
    (h : ∀ a ∈ l1, p a = false) : (l1 ++ l2).find? p = l2.find? p := by
  have h1 : l1.find? p = none := List.find?_eq_none.mpr fun a ha => by simp [h a ha]
  rw [List.find?_append, h1]
  rfl

/-! ### Characterization of the payment-recording branch -/

/-- The start reference used by the `PAY` branch of `payment_page`: the manual
`from_date` override when present, otherwise the date part of the loan's
`created_at` (`loan["created_at"][:10]`). -/
def rpStart (loan : Loan) (form : PayForm) : ℤ :=
  match form.from_date with
  | some d => d
  | none => loan.created_at.fdiv 86400

/-- The `interest_due` computed inside the `PAY` branch. -/
def rpDue (db : DB) (lid : Nat) (loan : Loan) (form : PayForm) : ℚ :=
  interest_due_as_of db lid form.as_of_date (some (rpStart loan form))

/-- The `to_interest` allocation of the `PAY` branch. -/
def rpTi (db : DB) (lid : Nat) (loan : Loan) (form : PayForm) : ℚ :=
  min form.amount (rpDue db lid loan form)

/-- The payment rows a successful `recordPayment` appends: an INTERES row for
the clamped interest component when positive, then an ABONO row for
`capital_extra` when positive. -/
def rpNewPays (db : DB) (lid : Nat) (loan : Loan) (form : PayForm) (now : ℤ) :
    List Payment :=
  (if 0 < rpTi db lid loan form then
      [⟨db.next_payment_id, lid, now, round2 (rpTi db lid loan form), tINTERES, form.notes⟩]
    else [])
    ++ (if 0 < form.capital_extra then
        [⟨(if 0 < rpTi db lid loan form then db.next_payment_id + 1 else db.next_payment_id),
          lid, now, round2 form.capital_extra, tABONO, form.notes⟩]
      else [])

/-- Full description of a successful `recordPayment`: the interest component
is clamped to `interest_due`, the principal component is exactly
`capital_extra`, the two payment rows (when positive) are appended, the
loan's amount drops by the rounded principal component, everything else in
the loans table is untouched, and one cash movement for the rounded total is
appended. -/
theorem recordPayment_spec (db : DB) (lid : Nat) (form : PayForm) (now : ℤ)
    (loan : Loan) (hl : db.loans lid = some loan)
    (hamt : ¬(form.amount ≤ 0 ∧ form.capital_extra ≤ 0)) :
    ∃ db', recordPayment db lid form now = Except.ok db' ∧
      db'.payments = db.payments ++ rpNewPays db lid loan form now ∧
      db'.loans lid = some (if 0 < form.capital_extra then
          { loan with amount := loan.amount - round2 form.capital_extra }
        else loan) ∧
      (∀ j, j ≠ lid → db'.loans j = db.loans j) ∧
      db'.cash_movements = db.cash_movements
        ++ [⟨now, payConcept lid, round2 (rpTi db lid loan form + form.capital_extra), refPAY⟩] ∧
      db'.next_payment_id = db.next_payment_id + (rpNewPays db lid loan form now).length := by
  unfold recordPayment rpNewPays rpTi rpDue rpStart
  rw [if_neg hamt, hl]
  refine ⟨_, rfl, ?_, ?_, ?_, ?_, ?_⟩ <;> dsimp only <;> split_ifs <;>
    simp_all

/-! ### Concrete fixtures used by witnesses and counterexamples -/

def exLoan : Loan :=
  { created_at := 0, item_name := "anillo", weight_grams := 10, customer_name := "Ana",
    customer_id := "001", phone := "5551234", amount := 1000, interest_rate := 20,
    due_date := 90, status := "ACTIVO" }

def exDB : DB :=
  { loans := fun j => if j = 1 then some exLoan else none
    payments := []
    next_payment_id := 1
    cash_movements := [] }

/-- A 250 interest payment plus a 50 principal payment (the spec's $250 AUTO
example realized through the handler's two form fields). -/
def c3Form : PayForm :=
  { amount := 250, capital_extra := 50, notes := "", as_of_date := 30,
    from_date := none, apply_mode := modeAUTO }

/-! ### C3: undo is a right inverse of payment recording -/

/-- C3: for a freshly recorded receipt (no pre-existing payment row of this
loan shares the timestamp, and all pre-existing ids are below the
AUTOINCREMENT counter), undoing it restores the loan row exactly (in
particular its principal), leaves all other loans untouched, deletes all
payment rows of the receipt, and inserts one cash movement whose amount is
the receipt's total with opposite sign. -/
theorem c3_undo_restores_principal
    (db : DB) (lid : Nat) (loan : Loan) (form : PayForm) (now undoNow : ℤ) (db2 db3 : DB)
    (hl : db.loans lid = some loan)
    (hfresh : ∀ p ∈ db.payments, ¬(p.loan_id = lid ∧ p.paid_at = now))
    (hids : ∀ p ∈ db.payments, p.id < db.next_payment_id)
    (hrec : recordPayment db lid form now = Except.ok db2)
    (hundo : undoPayment db2 lid db.next_payment_id undoNow roleAdmin adminKey = Except.ok db3) :
    db3.loans lid = some loan ∧
    (∀ j, j ≠ lid → db3.loans j = db.loans j) ∧
    db3.payments = db.payments ∧
    db3.cash_movements = db2.cash_movements ++
      [⟨undoNow, undoConcept lid,
        -(((db2.payments.filter (fun p => p.loan_id == lid && p.paid_at == now)).map
            (fun p => p.amount)).sum), refUNDO⟩] := by
  have hamt : ¬(form.amount ≤ 0 ∧ form.capital_extra ≤ 0) := by
    intro h
    rw [recordPayment, if_pos h] at hrec
    exact Except.noConfusion hrec
  obtain ⟨db2', hrec', hP, hLlid, hLother, hCM, hNid⟩ :=
    recordPayment_spec db lid form now loan hl hamt
  rw [hrec'] at hrec
  injection hrec with hdb2
  rw [hdb2] at hP hLlid hLother hCM hNid
  have hkeep : ∀ a ∈ db.payments, (!(a.loan_id == lid && a.paid_at == now)) = true := by
    intro a ha
    have h := hfresh a ha
    simp only [Bool.not_eq_true', Bool.and_eq_false_iff, beq_eq_false_iff_ne, ne_eq]
    tauto
  have hold2 : db.payments.filter (fun p => p.loan_id == lid && p.paid_at == now) = [] := by
    refine List.filter_eq_nil_iff.mpr fun a ha => ?_
    have h := hkeep a ha
    simp only [Bool.not_eq_true'] at h
    simp [h]
  have hold3 : db.payments.filter
      (fun p => p.loan_id == lid && p.paid_at == now && p.type == tABONO) = [] := by
    refine List.filter_eq_nil_iff.mpr fun a ha => ?_
    have h := hkeep a ha
    simp only [Bool.not_eq_true'] at h
    simp [h]
  have hfindskip : ∀ a ∈ db.payments, (a.id == db.next_payment_id) = false := by
    intro a ha
    have := hids a ha
    simp only [beq_eq_false_iff_ne, ne_eq]
    omega
  have hsne : (tINTERES == tABONO) = false := by decide
  rcases lt_or_le 0 (rpTi db lid loan form) with hti | hti <;>
    rcases lt_or_le 0 form.capital_extra with htp | htp
  -- Case A: interest row and principal row
  · have hNP : rpNewPays db lid loan form now =
        [⟨db.next_payment_id, lid, now, round2 (rpTi db lid loan form), tINTERES, form.notes⟩,
         ⟨db.next_payment_id + 1, lid, now, round2 form.capital_extra, tABONO, form.notes⟩] := by
      rw [rpNewPays, if_pos hti, if_pos htp, if_pos hti]
      rfl
    rw [hNP] at hP hNid
    have hfind : db2.payments.find? (fun p => p.id == db.next_payment_id) =
        some ⟨db.next_payment_id, lid, now, round2 (rpTi db lid loan form), tINTERES, form.notes⟩ := by
      rw [hP, find?_append_of_forall_false hfindskip]
      exact List.find?_cons_of_pos _ (by simp)
    rw [undoPayment, if_neg (fun h => h rfl), if_neg (fun h => h rfl), hfind] at hundo
    injection hundo with h3
    subst h3
    have hcap : ((db2.payments.filter (fun p =>
        p.loan_id == lid && p.paid_at == now && p.type == tABONO)).map
          (fun p => p.amount)).sum = round2 form.capital_extra := by
      rw [hP, List.filter_append, hold3]
      simp [hsne]
    have htot : ((db2.payments.filter (fun p =>
        p.loan_id == lid && p.paid_at == now)).map (fun p => p.amount)).sum =
          round2 (rpTi db lid loan form) + round2 form.capital_extra := by
      rw [hP, List.filter_append, hold2]
      simp
    have hLlid' : db2.loans lid = some { loan with amount := loan.amount - round2 form.capital_extra } := by
      rw [hLlid, if_pos htp]
    refine ⟨?_, ?_, ?_, ?_⟩
    · dsimp only
      rw [hcap]
      rcases (round2_nonneg _ (le_of_lt htp)).lt_or_eq with hr | hr
      · rw [if_pos hr]
        simp only [if_pos rfl, hLlid', Option.map_some, round2_idem]
        simp
      · rw [if_neg (by rw [← hr]; exact lt_irrefl 0)]
        rw [hLlid', ← hr]
        simp
    · intro j hj
      dsimp only
      rw [hcap]
      split_ifs with hr
      · simp only [if_neg hj]
        exact hLother j hj
      · exact hLother j hj
    · dsimp only
      rw [hP, List.filter_append, List.filter_eq_self.mpr hkeep]
      simp
    · dsimp only
      rw [htot, round2_add_round2]
  -- Case B: interest row only
  · have hNP : rpNewPays db lid loan form now =
        [⟨db.next_payment_id, lid, now, round2 (rpTi db lid loan form), tINTERES, form.notes⟩] := by
      rw [rpNewPays, if_pos hti, if_neg (not_lt.mpr htp)]
      simp
    rw [hNP] at hP hNid
    have hfind : db2.payments.find? (fun p => p.id == db.next_payment_id) =
        some ⟨db.next_payment_id, lid, now, round2 (rpTi db lid loan form), tINTERES, form.notes⟩ := by
      rw [hP, find?_append_of_forall_false hfindskip]
      exact List.find?_cons_of_pos _ (by simp)
    rw [undoPayment, if_neg (fun h => h rfl), if_neg (fun h => h rfl), hfind] at hundo
    injection hundo with h3
    subst h3
    have hcap : ((db2.payments.filter (fun p =>
        p.loan_id == lid && p.paid_at == now && p.type == tABONO)).map
          (fun p => p.amount)).sum = 0 := by
      rw [hP, List.filter_append, hold3]
      simp [hsne]
    have htot : ((db2.payments.filter (fun p =>
        p.loan_id == lid && p.paid_at == now)).map (fun p => p.amount)).sum =
          round2 (rpTi db lid loan form) := by
      rw [hP, List.filter_append, hold2]
      simp
    have hLlid' : db2.loans lid = some loan := by
      rw [hLlid, if_neg (not_lt.mpr htp)]
    refine ⟨?_, ?_, ?_, ?_⟩
    · dsimp only
      rw [hcap, if_neg (lt_irrefl 0)]
      exact hLlid'
    · intro j hj
      dsimp only
      rw [hcap, if_neg (lt_irrefl 0)]
      exact hLother j hj
    · dsimp only
      rw [hP, List.filter_append, List.filter_eq_self.mpr hkeep]
      simp
    · dsimp only
      rw [htot, round2_idem]
  -- Case C: principal row only
  · have hNP : rpNewPays db lid loan form now =
        [⟨db.next_payment_id, lid, now, round2 form.capital_extra, tABONO, form.notes⟩] := by
      rw [rpNewPays, if_neg (not_lt.mpr hti), if_pos htp, if_neg (not_lt.mpr hti)]
      simp
    rw [hNP] at hP hNid
    have hfind : db2.payments.find? (fun p => p.id == db.next_payment_id) =
        some ⟨db.next_payment_id, lid, now, round2 form.capital_extra, tABONO, form.notes⟩ := by
      rw [hP, find?_append_of_forall_false hfindskip]
      exact List.find?_cons_of_pos _ (by simp)
    rw [undoPayment, if_neg (fun h => h rfl), if_neg (fun h => h rfl), hfind] at hundo
    injection hundo with h3
    subst h3
    have hcap : ((db2.payments.filter (fun p =>
        p.loan_id == lid && p.paid_at == now && p.type == tABONO)).map
          (fun p => p.amount)).sum = round2 form.capital_extra := by
      rw [hP, List.filter_append, hold3]
      simp
    have htot : ((db2.payments.filter (fun p =>
        p.loan_id == lid && p.paid_at == now)).map (fun p => p.amount)).sum =
          round2 form.capital_extra := by
      rw [hP, List.filter_append, hold2]
      simp
    have hLlid' : db2.loans lid = some { loan with amount := loan.amount - round2 form.capital_extra } := by
      rw [hLlid, if_pos htp]
    refine ⟨?_, ?_, ?_, ?_⟩
    · dsimp only
      rw [hcap]
      rcases (round2_nonneg _ (le_of_lt htp)).lt_or_eq with hr | hr
      · rw [if_pos hr]
        simp only [if_pos rfl, hLlid', Option.map_some, round2_idem]
        simp
      · rw [if_neg (by rw [← hr]; exact lt_irrefl 0)]
        rw [hLlid', ← hr]
        simp
    · intro j hj
      dsimp only
      rw [hcap]
      split_ifs with hr
      · simp only [if_neg hj]
        exact hLother j hj
      · exact hLother j hj
    · dsimp only
      rw [hP, List.filter_append, List.filter_eq_self.mpr hkeep]
      simp
    · dsimp only
      rw [htot, round2_idem]
  -- Case D: no rows inserted, the undo lookup fails
  · have hNP : rpNewPays db lid loan form now = [] := by
      rw [rpNewPays, if_neg (not_lt.mpr hti), if_neg (not_lt.mpr htp)]
      rfl
    rw [hNP, List.append_nil] at hP
    have hfind : db2.payments.find? (fun p => p.id == db.next_payment_id) = none := by
      rw [hP]
      exact List.find?_eq_none.mpr fun a ha => by simp [hfindskip a ha]
    rw [undoPayment, if_neg (fun h => h rfl), if_neg (fun h => h rfl), hfind] at hundo
    exact Except.noConfusion hundo

/-! ### C3 witness -/

theorem round2_intCast (n : ℤ) : round2 (n : ℚ) = n :=
  round2_eq_self _ (n * 100) (by push_cast; ring)

theorem round2_natCast (n : ℕ) : round2 (n : ℚ) = n := by
  have := round2_intCast n
  exact_mod_cast this

/-- Evaluation helper: with an explicit override the accrual formula reduces
to day-difference arithmetic (`combine(date, min.time())` cancels the 86400
factor exactly). -/
theorem interest_due_override (db : DB) (lid : Nat) (asof S : ℤ) (loan : Loan)
    (hl : db.loans lid = some loan) :
    interest_due_as_of db lid asof (some S) =
      max 0 (loan.amount * (rateOr20 loan.interest_rate / 100 / 30) *
        ((max 1 (asof - S) : ℤ) : ℚ)) := by
  unfold interest_due_as_of
  rw [hl]
  dsimp only
  have h : asof * 86400 - S * 86400 = (asof - S) * 86400 := by ring
  rw [h, Int.mul_fdiv_cancel _ (by norm_num)]

theorem exDB_due : interest_due_as_of exDB 1 30 (some 0) = 200 := by
  rw [interest_due_override exDB 1 30 0 exLoan rfl]
  norm_num [exLoan, rateOr20, max_def]

theorem c3_witness : ∃ db2 db3,
    recordPayment exDB 1 c3Form 2592000 = Except.ok db2 ∧
    undoPayment db2 1 exDB.next_payment_id 2592001 roleAdmin adminKey = Except.ok db3 ∧
    db3.loans 1 = some exLoan ∧ db3.payments = exDB.payments := by
  obtain ⟨db2, hrec, hP, hLlid, hLother, hCM, hNid⟩ :=
    recordPayment_spec exDB 1 c3Form 2592000 exLoan rfl (by norm_num [c3Form])
  have hti : rpTi exDB 1 exLoan c3Form = 200 := by
    have hs : rpStart exLoan c3Form = 0 := rfl
    rw [rpTi, rpDue, hs]
    simp only [c3Form]
    rw [exDB_due]
    norm_num [min_def]
  have hNP : rpNewPays exDB 1 exLoan c3Form 2592000 =
      [⟨1, 1, 2592000, 200, tINTERES, ""⟩, ⟨2, 1, 2592000, 50, tABONO, ""⟩] := by
    rw [rpNewPays, hti]
    norm_num [c3Form, exDB]
    constructor
    · exact round2_intCast 200
    · exact round2_intCast 50
  have hfind : db2.payments.find? (fun p => p.id == exDB.next_payment_id) =
      some ⟨1, 1, 2592000, 200, tINTERES, ""⟩ := by
    rw [hP, hNP]
    rfl
  have hstep : ∃ db3, undoPayment db2 1 exDB.next_payment_id 2592001 roleAdmin adminKey
      = Except.ok db3 := by
    rw [undoPayment, if_neg (fun h => h rfl), if_neg (fun h => h rfl), hfind]
    exact ⟨_, rfl⟩
  obtain ⟨db3, hundo⟩ := hstep
  have main := c3_undo_restores_principal exDB 1 exLoan c3Form 2592000 2592001 db2 db3
    rfl (by simp [exDB]) (by simp [exDB]) hrec hundo
  exact ⟨db2, db3, hrec, hundo, main.1, main.2.2.1⟩

/-! ### C1, C8: the accrual formula -/

def zeroRateLoan : Loan := { exLoan with interest_rate := 0 }

def zeroRateDB : DB :=
  { loans := fun j => if j = 1 then some zeroRateLoan else none
    payments := []
    next_payment_id := 1
    cash_movements := [] }

/-- Shared helper: for a loan with nonnegative principal and positive rate,
the accrual result is exactly the simple-interest formula (the `max 0` clamp
is inert). -/
theorem interest_due_formula_pos (db : DB) (lid : Nat) (loan : Loan) (P R : ℚ)
    (S T : ℤ) (hl : db.loans lid = some loan) (hP : loan.amount = P)
    (hR : loan.interest_rate = R) (h0P : 0 ≤ P) (h0R : 0 < R) :
    interest_due_as_of db lid T (some S) =
      P * (R / 100) / 30 * ((max 1 (T - S) : ℤ) : ℚ) := by
  rw [interest_due_override db lid T S loan hl, hP, hR]
  rw [rateOr20, if_neg (ne_of_gt h0R)]
  have hd : (0 : ℚ) ≤ ((max 1 (T - S) : ℤ) : ℚ) := by
    have : (1 : ℤ) ≤ max 1 (T - S) := le_max_left 1 (T - S)
    exact_mod_cast le_trans (by norm_num) this
  rw [max_eq_right (mul_nonneg (mul_nonneg h0P (by positivity)) hd)]
  ring

/-- C1 (amended): for every loan with principal `P ≥ 0` and rate `R > 0`, the
interest due with accrual start `S` and as-of date `T` equals
`P * (R/100) / 30 * max(1, whole days from S to T)`.  (The claim's unrestricted
form fails for a stored rate of exactly `0`, which the code replaces by the
default 20 — see the counterexample.) -/
theorem c1_interest_formula (db : DB) (lid : Nat) (loan : Loan) (P R : ℚ)
    (S T : ℤ) (hl : db.loans lid = some loan) (hP : loan.amount = P)
    (hR : loan.interest_rate = R) (h0P : 0 ≤ P) (h0R : 0 < R) :
    interest_due_as_of db lid T (some S) =
      P * (R / 100) / 30 * ((max 1 (T - S) : ℤ) : ℚ) :=
  interest_due_formula_pos db lid loan P R S T hl hP hR h0P h0R

/-- C1 counterexample: a loan with stored rate `R = 0` (principal 1000,
start day 0, as-of day 30) yields 200 — the default rate 20 is silently used —
while the claimed formula `P * (R/100) / 30 * days` gives 0. -/
theorem c1_counterexample :
    interest_due_as_of zeroRateDB 1 30 (some 0) = 200 ∧
    (1000 : ℚ) * (0 / 100) / 30 * 30 = 0 ∧ (200 : ℚ) ≠ 0 := by
  refine ⟨?_, by norm_num, by norm_num⟩
  rw [interest_due_override zeroRateDB 1 30 0 zeroRateLoan rfl]
  norm_num [zeroRateLoan, exLoan, rateOr20, max_def]

/-- C1 witness: the spec's worked example — 1000 at 20 percent per month,
created day 0, as-of day 30 — computes 200. -/
theorem c1_witness : interest_due_as_of exDB 1 30 (some 0) = 200 := by
  have h := c1_interest_formula exDB 1 exLoan 1000 20 0 30 rfl rfl rfl
    (by norm_num) (by norm_num)
  rw [h]
  norm_num [max_def]

/-- C8 (amended): for a loan with `P ≥ 0` and stored rate `R > 0` and start
`S`: the value at as-of `S` is the one-day minimum `P*(R/100)/30`; any as-of
date not after `S` clamps to the same one-day charge; the result is never
negative; and it is monotonically non-decreasing in the as-of date.  (The
equality part of the claim fails for a stored rate of exactly 0, which the
code replaces by 20 — see the counterexample.) -/
theorem c8_min_charge_monotone (db : DB) (lid : Nat) (loan : Loan) (P R : ℚ)
    (S : ℤ) (hl : db.loans lid = some loan) (hP : loan.amount = P)
    (hR : loan.interest_rate = R) (h0P : 0 ≤ P) (h0R : 0 < R) :
    interest_due_as_of db lid S (some S) = P * (R / 100) / 30 ∧
    (∀ T, T ≤ S → interest_due_as_of db lid T (some S) = P * (R / 100) / 30) ∧
    (∀ T, 0 ≤ interest_due_as_of db lid T (some S)) ∧
    (∀ T1 T2, T1 ≤ T2 →
      interest_due_as_of db lid T1 (some S) ≤ interest_due_as_of db lid T2 (some S)) := by
  have key : ∀ T, interest_due_as_of db lid T (some S) =
      P * (R / 100) / 30 * ((max 1 (T - S) : ℤ) : ℚ) := fun T =>
    interest_due_formula_pos db lid loan P R S T hl hP hR h0P h0R
  have hc : (0 : ℚ) ≤ P * (R / 100) / 30 := by positivity
  have hone : ∀ T, T ≤ S → interest_due_as_of db lid T (some S) = P * (R / 100) / 30 := by
    intro T hT
    rw [key T, max_eq_left (by omega)]
    norm_num
  refine ⟨hone S le_rfl, hone, ?_, ?_⟩
  · intro T
    rw [key T]
    have : (1 : ℤ) ≤ max 1 (T - S) := le_max_left _ _
    have hd : (0 : ℚ) ≤ ((max 1 (T - S) : ℤ) : ℚ) := by exact_mod_cast le_trans (by norm_num) this
    positivity
  · intro T1 T2 h12
    rw [key T1, key T2]
    have hm : ((max 1 (T1 - S) : ℤ) : ℚ) ≤ ((max 1 (T2 - S) : ℤ) : ℚ) := by
      have : max 1 (T1 - S) ≤ max 1 (T2 - S) := by omega
      exact_mod_cast this
    exact mul_le_mul_of_nonneg_left hm hc

/-- C8 counterexample: a stored rate of 0 breaks the claimed identity
`interest_due_as_of(S, S) = P*(R/100)/30`: the code charges the default-rate
one-day minimum 20/3 instead of 0. -/
theorem c8_counterexample :
    interest_due_as_of zeroRateDB 1 0 (some 0) = 20 / 3 ∧
    (1000 : ℚ) * (0 / 100) / 30 = 0 ∧ (20 / 3 : ℚ) ≠ 0 := by
  refine ⟨?_, by norm_num, by norm_num⟩
  rw [interest_due_override zeroRateDB 1 0 0 zeroRateLoan rfl]
  norm_num [zeroRateLoan, exLoan, rateOr20, max_def]

/-- C8 witness: at `S = T = 0` the 1000/20 loan is charged the one-day
minimum, and the charge from day -5 is at most the charge to day 17. -/
theorem c8_witness :
    interest_due_as_of exDB 1 0 (some 0) = 1000 * ((20 : ℚ) / 100) / 30 ∧
    interest_due_as_of exDB 1 (-5) (some 0) ≤ interest_due_as_of exDB 1 17 (some 0) := by
  have h := c8_min_charge_monotone exDB 1 exLoan 1000 20 0 rfl rfl rfl
    (by norm_num) (by norm_num)
  exact ⟨h.1, h.2.2.2 (-5) 17 (by norm_num)⟩

/-! ### C7: the accrual start reference -/

def lateLoan : Loan := { exLoan with created_at := 8640000 }

def lateDB : DB :=
  { loans := fun j => if j = 1 then some lateLoan else none
    payments := []
    next_payment_id := 1
    cash_movements := [] }

/-- Modelled from the claim of C7 (refinement comparison only): the accrual
start taken as the later (maximum) of the loan's creation date, the most
recent INTERES payment, and the override, with the same formula otherwise. -/
def interest_due_maxref (db : DB) (loan_id : Nat) (as_of_date : ℤ)
    (start_override : Option ℤ) : ℚ :=
  match db.loans loan_id with
  | none => 0
  | some loan =>
    let start_dt : ℤ :=
      max loan.created_at
        (max ((lastIntPaid db loan_id).getD loan.created_at)
          (match start_override with
           | some d => d * 86400
           | none => loan.created_at))
    let end_dt := as_of_date * 86400
    let days : ℤ := max 1 ((end_dt - start_dt).fdiv 86400)
    max 0 (loan.amount * (rateOr20 loan.interest_rate / 100 / 30) * (days : ℚ))

/-- C7 counterexample: for a loan created on day 100 with an override of
day 0 and as-of day 100, the code starts at the override (100 accrual days,
2000/3), not at the later creation date (1 day, 20/3) as the claim's
maximum rule would require. -/
theorem c7_counterexample :
    interest_due_as_of lateDB 1 100 (some 0) = 2000 / 3 ∧
    interest_due_maxref lateDB 1 100 (some 0) = 20 / 3 ∧
    (2000 / 3 : ℚ) ≠ 20 / 3 := by
  refine ⟨?_, ?_, by norm_num⟩
  · rw [interest_due_override lateDB 1 100 0 lateLoan rfl]
    norm_num [lateLoan, exLoan, rateOr20, max_def]
  · have hli : lastIntPaid lateDB 1 = none := rfl
    have hL : lateDB.loans 1 = some lateLoan := rfl
    unfold interest_due_maxref
    rw [hL, hli]
    dsimp only
    have hfd : ((100 * 86400 - max lateLoan.created_at
        (max ((none : Option ℤ).getD lateLoan.created_at) (0 * 86400))).fdiv 86400) = 0 := by
      decide
    rw [hfd]
    norm_num [lateLoan, exLoan, rateOr20, max_def]

/-- C7 (amended): the start reference is a priority choice, not a maximum:
the caller-supplied override when present, otherwise the paid-at of the most
recent INTEREST payment, otherwise the loan's creation timestamp; in
particular with no prior INTEREST payment and no override it is the creation
timestamp. -/
theorem c7_start_priority (db : DB) (lid : Nat) (asof : ℤ) (ov : Option ℤ)
    (loan : Loan) (hl : db.loans lid = some loan) :
    interest_due_as_of db lid asof ov =
      max 0 (loan.amount * (rateOr20 loan.interest_rate / 100 / 30) *
        ((max 1 ((asof * 86400 - (match ov with
            | some d => d * 86400
            | none => (lastIntPaid db lid).getD loan.created_at)).fdiv 86400) : ℤ) : ℚ)) ∧
    (ov = none → lastIntPaid db lid = none →
      interest_due_as_of db lid asof ov =
        max 0 (loan.amount * (rateOr20 loan.interest_rate / 100 / 30) *
          ((max 1 ((asof * 86400 - loan.created_at).fdiv 86400) : ℤ) : ℚ))) := by
  have main : interest_due_as_of db lid asof ov =
      max 0 (loan.amount * (rateOr20 loan.interest_rate / 100 / 30) *
        ((max 1 ((asof * 86400 - (match ov with
            | some d => d * 86400
            | none => (lastIntPaid db lid).getD loan.created_at)).fdiv 86400) : ℤ) : ℚ)) := by
    unfold interest_due_as_of
    rw [hl]
    cases ov with
    | some d => rfl
    | none => cases h : lastIntPaid db lid <;> simp [h]
  refine ⟨main, ?_⟩
  rintro rfl hnone
  rw [main, hnone]
  rfl

/-- C7 witness: with no override and no prior INTEREST payment the start
reference is the creation timestamp (day 0 for the fixture loan), giving the
familiar 30-day charge of 200. -/
theorem c7_witness : interest_due_as_of exDB 1 30 none = 200 := by
  have h := (c7_start_priority exDB 1 30 none exLoan rfl).2 rfl rfl
  rw [h]
  have hfd : ((30 * 86400 - exLoan.created_at).fdiv 86400) = 30 := by decide
  rw [hfd]
  norm_num [exLoan, rateOr20, max_def]

/-! ### C2: AUTO allocation -/

/-- A 250 payment entered in the interest field with no capital_extra, in AUTO
mode (the spec's $250 AUTO example as a single tendered amount). -/
def c2Form : PayForm :=
  { amount := 250, capital_extra := 0, notes := "", as_of_date := 30,
    from_date := none, apply_mode := modeAUTO }

theorem rpTi_c2 : rpTi exDB 1 exLoan c2Form = 200 := by
  have hs : rpStart exLoan c2Form = 0 := rfl
  rw [rpTi, rpDue, hs]
  simp only [c2Form]
  rw [exDB_due]
  norm_num [min_def]

/-- C2 (amended): the interest allocation is `min(amount, interest_due)`, but
the excess of the tendered interest amount over `interest_due` is discarded —
it is not applied to principal.  The principal moves only by the separately
supplied `capital_extra` field. -/
theorem c2_allocation (db : DB) (lid : Nat) (form : PayForm) (now : ℤ)
    (loan : Loan) (hl : db.loans lid = some loan)
    (hamt : ¬(form.amount ≤ 0 ∧ form.capital_extra ≤ 0)) :
    ∃ db', recordPayment db lid form now = Except.ok db' ∧
      (db'.payments.filter (fun p => p.type == tINTERES)).map (fun p => p.amount) =
        ((db.payments.filter (fun p => p.type == tINTERES)).map (fun p => p.amount))
          ++ (if 0 < rpTi db lid loan form then [round2 (rpTi db lid loan form)] else []) ∧
      (db'.loans lid).map Loan.amount =
        some (loan.amount - (if 0 < form.capital_extra then round2 form.capital_extra else 0)) := by
  obtain ⟨db', hrec, hP, hLlid, hLother, hCM, hNid⟩ :=
    recordPayment_spec db lid form now loan hl hamt
  have hsne : (tABONO == tINTERES) = false := by decide
  refine ⟨db', hrec, ?_, ?_⟩
  · rw [hP, List.filter_append, List.map_append, rpNewPays]
    split_ifs <;> simp [hsne]
  · rw [hLlid]
    split_ifs <;> simp

/-- C2 counterexample: the spec's own $250 AUTO example — a 250 tendered
interest amount against interest_due 200 — records interest 200, records no
principal row, and leaves the principal at 1000, not 950 as the claim
requires. -/
theorem c2_counterexample :
    (recordPayment exDB 1 c2Form 2592000).map
      (fun d => ((d.loans 1).map Loan.amount, d.payments.map (fun p => (p.type, p.amount)))) =
      Except.ok (some 1000, [(tINTERES, 200)]) ∧ ((1000 : ℚ) ≠ 950) := by
  obtain ⟨db', hrec, hP, hLlid, hLother, hCM, hNid⟩ :=
    recordPayment_spec exDB 1 c2Form 2592000 exLoan rfl (by norm_num [c2Form])
  have hNP : rpNewPays exDB 1 exLoan c2Form 2592000 =
      [⟨1, 1, 2592000, 200, tINTERES, ""⟩] := by
    rw [rpNewPays, rpTi_c2]
    norm_num [c2Form, exDB]
    exact round2_intCast 200
  refine ⟨?_, by norm_num⟩
  rw [hrec]
  simp only [Except.map]
  rw [hP, hNP, hLlid]
  norm_num [c2Form, exDB, exLoan]

/-- C2 witness: the amended allocation at the fixture — interest clamped to
200 and the principal untouched because no capital_extra was supplied. -/
theorem c2_witness :
    ∃ db', recordPayment exDB 1 c2Form 2592000 = Except.ok db' ∧
      (db'.payments.filter (fun p => p.type == tINTERES)).map (fun p => p.amount) = [200] ∧
      (db'.loans 1).map Loan.amount = some 1000 := by
  obtain ⟨db', hrec, hint, hamt⟩ := c2_allocation exDB 1 c2Form 2592000 exLoan rfl
    (by norm_num [c2Form])
  refine ⟨db', hrec, ?_, ?_⟩
  · rw [hint, rpTi_c2]
    have h200 : round2 (200 : ℚ) = 200 := by exact_mod_cast round2_natCast 200
    norm_num [exDB, h200]
  · rw [hamt]
    norm_num [c2Form, exLoan]

/-! ### C4: principal can go negative -/

def smallLoan : Loan := { exLoan with amount := 100 }

def smallDB : DB :=
  { loans := fun j => if j = 1 then some smallLoan else none
    payments := []
    next_payment_id := 1
    cash_movements := [] }

/-- A pure principal payment of 150 against the 100-principal loan. -/
def c4Form : PayForm :=
  { amount := 0, capital_extra := 150, notes := "", as_of_date := 30,
    from_date := none, apply_mode := modeAUTO }

/-- C4 (amended): principal payments are not validated against the remaining
balance: whenever the rounded `capital_extra` exceeds the loan's current
principal, recording the payment drives the principal strictly negative. -/
theorem c4_principal_can_go_negative (db : DB) (lid : Nat) (form : PayForm)
    (now : ℤ) (loan : Loan) (hl : db.loans lid = some loan)
    (hce : 0 < form.capital_extra) (hover : loan.amount < round2 form.capital_extra) :
    ∃ db', recordPayment db lid form now = Except.ok db' ∧
      (db'.loans lid).map Loan.amount = some (loan.amount - round2 form.capital_extra) ∧
      loan.amount - round2 form.capital_extra < 0 := by
  obtain ⟨db', hrec, hP, hLlid, hLother, hCM, hNid⟩ :=
    recordPayment_spec db lid form now loan hl (fun h => absurd hce (not_lt.mpr h.2))
  refine ⟨db', hrec, ?_, by linarith⟩
  rw [hLlid, if_pos hce]
  simp

/-- C4 counterexample: a 150 principal payment against a principal of 100
succeeds and leaves the loan's amount at -50, violating the claimed
invariant `principal ≥ 0`. -/
theorem c4_counterexample :
    (recordPayment smallDB 1 c4Form 2592000).map (fun d => (d.loans 1).map Loan.amount) =
      Except.ok (some (-50)) ∧ ((-50 : ℚ) < 0) := by
  obtain ⟨db', hrec, hP, hLlid, hLother, hCM, hNid⟩ :=
    recordPayment_spec smallDB 1 c4Form 2592000 smallLoan rfl (by norm_num [c4Form])
  refine ⟨?_, by norm_num⟩
  rw [hrec]
  simp only [Except.map]
  rw [hLlid]
  have h150 : round2 (150 : ℚ) = 150 := by exact_mod_cast round2_natCast 150
  norm_num [c4Form, smallLoan, exLoan, h150]

/-- C4 witness: the amended theorem applied to the concrete overpayment. -/
theorem c4_witness :
    ∃ db', recordPayment smallDB 1 c4Form 2592000 = Except.ok db' ∧
      (db'.loans 1).map Loan.amount = some (smallLoan.amount - round2 c4Form.capital_extra) ∧
      smallLoan.amount - round2 c4Form.capital_extra < 0 :=
  c4_principal_can_go_negative smallDB 1 c4Form 2592000 smallLoan rfl
    (by norm_num [c4Form])
    (by
      have h150 : round2 (150 : ℚ) = 150 := by exact_mod_cast round2_natCast 150
      simp only [c4Form, smallLoan, exLoan]
      rw [h150]
      norm_num)

/-! ### C5, C6: the apply_mode selector is ignored -/

/-- 250 in the interest field with the SOLO_INTERES mode selected. -/
def c5Form : PayForm :=
  { amount := 250, capital_extra := 0, notes := "", as_of_date := 30,
    from_date := none, apply_mode := modeSoloInteres }

/-- 100 in the interest field and 50 capital_extra with SOLO_CAPITAL mode. -/
def c6Form : PayForm :=
  { amount := 100, capital_extra := 50, notes := "", as_of_date := 30,
    from_date := none, apply_mode := modeSoloCapital }

theorem rpTi_c5 : rpTi exDB 1 exLoan c5Form = 200 := by
  have hs : rpStart exLoan c5Form = 0 := rfl
  rw [rpTi, rpDue, hs]
  simp only [c5Form]
  rw [exDB_due]
  norm_num [min_def]

theorem rpTi_c6 : rpTi exDB 1 exLoan c6Form = 100 := by
  have hs : rpStart exLoan c6Form = 0 := rfl
  rw [rpTi, rpDue, hs]
  simp only [c6Form]
  rw [exDB_due]
  norm_num [min_def]

/-- C5 (amended): the `apply_mode` form field is never read by the handler, so
in SOLO_INTERES (INTEREST_ONLY) mode the recorded interest is still clamped
to `min(tendered, interest_due)` — it is not the entire tendered amount —
and the outcome is identical under every mode string. -/
theorem c5_interes_still_clamped (db : DB) (lid : Nat) (form : PayForm)
    (now : ℤ) (loan : Loan) (hl : db.loans lid = some loan)
    (hmode : form.apply_mode = modeSoloInteres)
    (hamt : ¬(form.amount ≤ 0 ∧ form.capital_extra ≤ 0)) :
    (∀ m, recordPayment db lid { form with apply_mode := m } now =
      recordPayment db lid form now) ∧
    ∃ db', recordPayment db lid form now = Except.ok db' ∧
      (db'.payments.filter (fun p => p.type == tINTERES)).map (fun p => p.amount) =
        ((db.payments.filter (fun p => p.type == tINTERES)).map (fun p => p.amount))
          ++ (if 0 < rpTi db lid loan form then [round2 (rpTi db lid loan form)] else []) := by
  refine ⟨fun m => rfl, ?_⟩
  obtain ⟨db', hrec, hP, hLlid, hLother, hCM, hNid⟩ :=
    recordPayment_spec db lid form now loan hl hamt
  have hsne : (tABONO == tINTERES) = false := by decide
  refine ⟨db', hrec, ?_⟩
  rw [hP, List.filter_append, List.map_append, rpNewPays]
  split_ifs <;> simp [hsne]

/-- C5 counterexample: in SOLO_INTERES mode a tendered 250 against
interest_due 200 records an interest row of 200, not 250 — the clamping the
claim denies does happen. -/
theorem c5_counterexample :
    c5Form.apply_mode = modeSoloInteres ∧
    (recordPayment exDB 1 c5Form 2592000).map
      (fun d => d.payments.map (fun p => (p.type, p.amount))) =
      Except.ok [(tINTERES, 200)] ∧ ((200 : ℚ) ≠ 250) := by
  obtain ⟨db', hrec, hP, hLlid, hLother, hCM, hNid⟩ :=
    recordPayment_spec exDB 1 c5Form 2592000 exLoan rfl (by norm_num [c5Form])
  have hNP : rpNewPays exDB 1 exLoan c5Form 2592000 =
      [⟨1, 1, 2592000, 200, tINTERES, ""⟩] := by
    rw [rpNewPays, rpTi_c5]
    norm_num [c5Form, exDB]
    exact round2_intCast 200
  refine ⟨rfl, ?_, by norm_num⟩
  rw [hrec]
  simp only [Except.map]
  rw [hP, hNP]
  norm_num [exDB]

/-- C5 witness: the amended clamping at the fixture (interest recorded 200
for a tendered 250 in SOLO_INTERES mode), plus mode-independence. -/
theorem c5_witness :
    recordPayment exDB 1 { c5Form with apply_mode := modeAUTO } 2592000 =
      recordPayment exDB 1 c5Form 2592000 ∧
    ∃ db', recordPayment exDB 1 c5Form 2592000 = Except.ok db' ∧
      (db'.payments.filter (fun p => p.type == tINTERES)).map (fun p => p.amount) = [200] := by
  obtain ⟨hmode, db', hrec, hint⟩ := c5_interes_still_clamped exDB 1 c5Form 2592000 exLoan
    rfl rfl (by norm_num [c5Form])
  refine ⟨hmode modeAUTO, db', hrec, ?_⟩
  rw [hint, rpTi_c5]
  have h200 : round2 (200 : ℚ) = 200 := by exact_mod_cast round2_natCast 200
  norm_num [exDB, h200]

/-- C6 (amended): the SOLO_CAPITAL (PRINCIPAL_ONLY) selector has no effect:
the principal is reduced by exactly the rounded `capital_extra`, and an
INTEREST payment row is still written whenever the clamped interest component
`min(amount, interest_due)` is positive. -/
theorem c6_capital_mode_ignored (db : DB) (lid : Nat) (form : PayForm)
    (now : ℤ) (loan : Loan) (hl : db.loans lid = some loan)
    (hmode : form.apply_mode = modeSoloCapital)
    (hamt : ¬(form.amount ≤ 0 ∧ form.capital_extra ≤ 0)) :
    (∀ m, recordPayment db lid { form with apply_mode := m } now =
      recordPayment db lid form now) ∧
    ∃ db', recordPayment db lid form now = Except.ok db' ∧
      (db'.loans lid).map Loan.amount =
        some (loan.amount - (if 0 < form.capital_extra then round2 form.capital_extra else 0)) ∧
      (0 < rpTi db lid loan form →
        (⟨db.next_payment_id, lid, now, round2 (rpTi db lid loan form), tINTERES, form.notes⟩ :
          Payment) ∈ db'.payments) := by
  refine ⟨fun m => rfl, ?_⟩
  obtain ⟨db', hrec, hP, hLlid, hLother, hCM, hNid⟩ :=
    recordPayment_spec db lid form now loan hl hamt
  refine ⟨db', hrec, ?_, ?_⟩
  · rw [hLlid]
    split_ifs <;> simp
  · intro hti
    rw [hP, rpNewPays, if_pos hti]
    simp

/-- C6 counterexample: in SOLO_CAPITAL mode with 100 tendered interest and 50
capital_extra, an INTEREST row of 100 is written — contradicting the claim
that no interest row is written in this mode. -/
theorem c6_counterexample :
    c6Form.apply_mode = modeSoloCapital ∧
    (recordPayment exDB 1 c6Form 2592000).map
      (fun d => d.payments.map (fun p => (p.type, p.amount))) =
      Except.ok [(tINTERES, 100), (tABONO, 50)] ∧
    (tINTERES, (100 : ℚ)) ∈ [(tINTERES, (100 : ℚ)), (tABONO, 50)] := by
  obtain ⟨db', hrec, hP, hLlid, hLother, hCM, hNid⟩ :=
    recordPayment_spec exDB 1 c6Form 2592000 exLoan rfl (by norm_num [c6Form])
  have hNP : rpNewPays exDB 1 exLoan c6Form 2592000 =
      [⟨1, 1, 2592000, 100, tINTERES, ""⟩, ⟨2, 1, 2592000, 50, tABONO, ""⟩] := by
    rw [rpNewPays, rpTi_c6]
    norm_num [c6Form, exDB]
    constructor
    · exact round2_intCast 100
    · exact round2_intCast 50
  refine ⟨rfl, ?_, by simp⟩
  rw [hrec]
  simp only [Except.map]
  rw [hP, hNP]
  norm_num [exDB]

/-- C6 witness: the amended statement at the fixture — principal reduced by
exactly 50, and the 100 interest row present despite SOLO_CAPITAL mode. -/
theorem c6_witness :
    ∃ db', recordPayment exDB 1 c6Form 2592000 = Except.ok db' ∧
      (db'.loans 1).map Loan.amount = some 950 ∧
      (⟨1, 1, 2592000, 100, tINTERES, ""⟩ : Payment) ∈ db'.payments := by
  obtain ⟨hmode, db', hrec, hamt, hmem⟩ := c6_capital_mode_ignored exDB 1 c6Form 2592000
    exLoan rfl rfl (by norm_num [c6Form])
  have h50 : round2 (50 : ℚ) = 50 := by exact_mod_cast round2_natCast 50
  have h100 : round2 (100 : ℚ) = 100 := by exact_mod_cast round2_natCast 100
  refine ⟨db', hrec, ?_, ?_⟩
  · rw [hamt]
    norm_num [c6Form, exLoan, h50]
  · have := hmem (by rw [rpTi_c6]; norm_num)
    rw [rpTi_c6] at this
    simpa [exDB, c6Form, h100] using this

/-! ### C10: frame of a recorded payment -/

/-- C10: recording a payment only appends rows to payments and
cash_movements and only modifies the paid loan's `amount` field; every other
field of the loan row — created_at, item and customer fields, interest_rate,
due_date, status — and every other loan are unchanged.  In particular the due
date is never extended by a payment. -/
theorem c10_frame (db : DB) (lid : Nat) (form : PayForm) (now : ℤ)
    (loan : Loan) (hl : db.loans lid = some loan)
    (hamt : ¬(form.amount ≤ 0 ∧ form.capital_extra ≤ 0)) :
    ∃ db', recordPayment db lid form now = Except.ok db' ∧
      (∃ l', db'.loans lid = some l' ∧
        l'.created_at = loan.created_at ∧ l'.item_name = loan.item_name ∧
        l'.weight_grams = loan.weight_grams ∧ l'.customer_name = loan.customer_name ∧
        l'.customer_id = loan.customer_id ∧ l'.phone = loan.phone ∧
        l'.interest_rate = loan.interest_rate ∧ l'.due_date = loan.due_date ∧
        l'.status = loan.status) ∧
      (∀ j, j ≠ lid → db'.loans j = db.loans j) ∧
      (∃ np, db'.payments = db.payments ++ np) ∧
      (∃ nc, db'.cash_movements = db.cash_movements ++ nc) := by
  obtain ⟨db', hrec, hP, hLlid, hLother, hCM, hNid⟩ :=
    recordPayment_spec db lid form now loan hl hamt
  refine ⟨db', hrec, ?_, hLother, ⟨_, hP⟩, ⟨_, hCM⟩⟩
  refine ⟨_, hLlid, ?_⟩
  split_ifs <;> simp

/-- C10 witness: the frame property at the concrete fixture payment (interest
plus principal), showing in particular the due date and status survive. -/
theorem c10_witness :
    ∃ db', recordPayment exDB 1 c3Form 2592000 = Except.ok db' ∧
      (∃ l', db'.loans 1 = some l' ∧ l'.due_date = exLoan.due_date ∧
        l'.status = exLoan.status ∧ l'.interest_rate = exLoan.interest_rate) ∧
      (∃ np, db'.payments = exDB.payments ++ np) := by
  obtain ⟨db', hrec, ⟨l', hl', h1, h2, h3, h4, h5, h6, h7, h8, h9⟩, hLother, hNp, hNc⟩ :=
    c10_frame exDB 1 c3Form 2592000 exLoan rfl (by norm_num [c3Form])
  exact ⟨db', hrec, ⟨l', hl', h8, h9, h7⟩, hNp⟩

/-! ### C9: the monthly breakdown estimator -/

/-- Length of the month-range loop: for valid months, one entry per calendar
month in the inclusive range. -/
theorem months_range_inclusive_length (y1 m1 y2 m2 : ℤ) (h1 : 1 ≤ m1) (h2 : m1 ≤ 12)
    (h3 : m2 ≤ 12) (h4 : 1 ≤ m2) :
    (months_range_inclusive y1 m1 y2 m2).length =
      (if y1 < y2 ∨ (y1 = y2 ∧ m1 ≤ m2) then ((y2 - y1) * 12 + (m2 - m1) + 1).toNat else 0) := by
  induction y1, m1, y2, m2 using months_range_inclusive.induct with
  | case1 y1 m1 y2 m2 hg ih2 ih1 =>
    rw [months_range_inclusive, if_pos hg, if_pos hg]
    by_cases hroll : 12 < m1 + 1
    · rw [if_pos hroll, List.length_cons, ih2 hroll le_rfl (by omega) h3 h4]
      by_cases hg2 : y1 + 1 < y2 ∨ y1 + 1 = y2 ∧ 1 ≤ m2
      · rw [if_pos hg2]
        omega
      · rw [if_neg hg2]
        omega
    · rw [if_neg hroll, List.length_cons, ih1 hroll (by omega) (by omega) h3 h4]
      by_cases hg2 : y1 < y2 ∨ y1 = y2 ∧ m1 + 1 ≤ m2
      · rw [if_pos hg2]
        omega
      · rw [if_neg hg2]
        omega
  | case2 y1 m1 y2 m2 hg =>
    rw [months_range_inclusive, if_neg hg, if_neg hg]
    rfl

/-- C9: over a closed month range `[from, to]` (valid calendar months,
`from ≤ to`), the breakdown has exactly `months_between_inclusive` entries,
each equal to `principal * rate/100`, and total `n` times that; it is a
function of the loan's amount and rate only, so it is independent of the
payment history. -/
theorem c9_monthly_breakdown (A R : ℚ) (y1 m1 y2 m2 : ℤ)
    (h1 : 1 ≤ m1) (h2 : m1 ≤ 12) (h3 : 1 ≤ m2) (h4 : m2 ≤ 12)
    (hle : y1 < y2 ∨ (y1 = y2 ∧ m1 ≤ m2)) :
    (((monthly_interest_breakdown A R y1 m1 y2 m2).1.length : ℤ) =
      months_between_inclusive y1 m1 y2 m2) ∧
    (∀ r ∈ (monthly_interest_breakdown A R y1 m1 y2 m2).1, r.2 = A * (R / 100)) ∧
    (monthly_interest_breakdown A R y1 m1 y2 m2).2 =
      (months_between_inclusive y1 m1 y2 m2 : ℚ) * (A * (R / 100)) := by
  have hlen : (months_range_inclusive y1 m1 y2 m2).length =
      ((y2 - y1) * 12 + (m2 - m1) + 1).toNat := by
    rw [months_range_inclusive_length y1 m1 y2 m2 h1 h2 h4 h3, if_pos hle]
  have hlenZ : ((months_range_inclusive y1 m1 y2 m2).length : ℤ) =
      months_between_inclusive y1 m1 y2 m2 := by
    rw [hlen, months_between_inclusive]
    omega
  refine ⟨?_, ?_, ?_⟩
  · unfold monthly_interest_breakdown
    dsimp only
    rw [List.length_map]
    exact hlenZ
  · intro r hr
    unfold monthly_interest_breakdown at hr
    dsimp only at hr
    rw [List.mem_map] at hr
    obtain ⟨ym, hym, rfl⟩ := hr
    rfl
  · unfold monthly_interest_breakdown monthly_interest
    dsimp only
    rw [← hlenZ]
    push_cast
    ring

/-- C9 witness: a 1000 loan at 20 percent over the three months
2024-01..2024-03 gives three entries of 200 and total 600, matching the
spec's example. -/
theorem c9_witness :
    (((monthly_interest_breakdown 1000 20 2024 1 2024 3).1.length : ℤ) = 3) ∧
    (∀ r ∈ (monthly_interest_breakdown 1000 20 2024 1 2024 3).1, r.2 = 200) ∧
    (monthly_interest_breakdown 1000 20 2024 1 2024 3).2 = 600 := by
  have h := c9_monthly_breakdown 1000 20 2024 1 2024 3 (by norm_num) (by norm_num)
    (by norm_num) (by norm_num) (Or.inr ⟨rfl, by norm_num⟩)
  refine ⟨?_, ?_, ?_⟩
  · rw [h.1]
    rfl
  · intro r hr
    rw [h.2.1 r hr]
    norm_num
  · rw [h.2.2]
    norm_num [months_between_inclusive]
